import Mathlib

/-
Shallow embedding of the distrobox Ansible connection plugin
(plugins/connection/distrobox.py).

The plugin shells out to two external executables.  We model the
environment of one playbook task as a `World`: the values of the two
executable-name options, the search-path resolution function
(`get_bin_path`, which either yields a path or fails), and the behavior
of spawned child processes (`subprocess.Popen` + `communicate`), given
as a function from the full argument vector and the stdin payload to an
exit code and the two output byte streams.  Byte strings are modelled as
Lean `String`s; `to_bytes` on data that is already bytes is the
identity and is therefore dropped.

A raised `AnsibleError` is modelled as `Except.error` carrying the
message.  Every operation additionally returns the list of child
processes it spawned (argument vector and stdin payload, in order), so
that theorems can speak about which commands were invoked.
-/

namespace Distrobox

/-- Outcome of one spawned child process: exit code and the two captured
byte streams, as returned by `communicate`. -/
structure ChildResult where
  rc : Int
  stdout : String
  stderr : String
deriving Repr, DecidableEq

/-- Record of one child-process invocation: the full argument vector
passed to the spawn primitive and the stdin payload. -/
structure Spawn where
  argv : List String
  stdin : Option String
deriving Repr, DecidableEq

/-- Environment of a single task invocation: configured option values,
search-path resolution, and the behavior of spawned children. -/
structure World where
  podman_executable : String
  distrobox_executable : String
  resolve : String → Option String
  run : List String → Option String → ChildResult

/-- Per-connection state stored by `Connection.__init__`: the container
identifier, the optional remote user, and the connected flag.  The
source stores nothing else (in particular no resolved executable path). -/
structure ConnState where
  container_id : String
  user : Option String
  connected : Bool
deriving Repr, DecidableEq

/-- Python truthiness of the optional remote-user string: `None` and the
empty string are falsy. -/
def truthy : Option String → Bool
  | none => false
  | some s => !s.isEmpty

/-- Error message raised when `get_bin_path` fails or yields a falsy
path: `"%s command not found in PATH" % exec`. -/
def notFoundMsg (exe : String) : String :=
  exe ++ " command not found in PATH"

namespace Connection

/-- Embedding of `Connection.__init__`: copies the container id and the
remote user from the play context and clears the connected flag. -/
def init (remote_addr : String) (remote_user : Option String) : ConnState :=
  { container_id := remote_addr, user := remote_user, connected := false }

/-- Embedding of `Connection._podman`: resolve the configured podman
executable (failing with a fatal error when absent or falsy, spawning
nothing), build `[podman_cmd, subcommand] (+ args)` and spawn it,
returning the child's exit code and byte streams. -/
def podman (w : World) (subcommand : String) (args : List String)
    (in_data : Option String) : Except String ChildResult × List Spawn :=
  let podman_exec := w.podman_executable
  match w.resolve podman_exec with
  | none => (.error (notFoundMsg podman_exec), [])
  | some podman_cmd =>
    if podman_cmd.isEmpty then (.error (notFoundMsg podman_exec), [])
    else
      let base := [podman_cmd, subcommand]
      let cmd := if args.isEmpty then base else base ++ args
      (.ok (w.run cmd in_data), [⟨cmd, in_data⟩])

/-- Embedding of `Connection._distrobox`: resolve the configured
distrobox executable (failing with a fatal error when absent or falsy,
spawning nothing), build `[distrobox_cmd, subcommand] ++ args` and
spawn it, returning the child's exit code and byte streams. -/
def distrobox (w : World) (subcommand : String) (args : List String)
    (in_data : Option String) : Except String ChildResult × List Spawn :=
  let distrobox_exec := w.distrobox_executable
  match w.resolve distrobox_exec with
  | none => (.error (notFoundMsg distrobox_exec), [])
  | some distrobox_cmd =>
    if distrobox_cmd.isEmpty then (.error (notFoundMsg distrobox_exec), [])
    else
      let cmd := [distrobox_cmd, subcommand] ++ args
      (.ok (w.run cmd in_data), [⟨cmd, in_data⟩])

/-- Embedding of `Connection._distrobox_exec`: prepend the fixed
`enter` flags (`-a`, `--user=<user or root>`, `--name <container>`),
append the caller's extra distrobox arguments, then
`-- bash -l -c <cmd>`, and run `distrobox enter` with that vector. -/
def distrobox_exec (w : World) (st : ConnState) (cmd : String)
    (distrobox_args : List String) : Except String ChildResult × List Spawn :=
  let args :=
    ["-a",
     "--user=" ++ (if truthy st.user then st.user.getD "" else "root"),
     "--name", st.container_id]
    ++ distrobox_args ++ ["--", "bash", "-l", "-c", cmd]
  distrobox w "enter" args none

/-- Embedding of `Connection._connect`: sets the connected flag. -/
def connect (st : ConnState) : ConnState :=
  { st with connected := true }

/-- Embedding of `Connection.close`: clears the connected flag. -/
def close (st : ConnState) : ConnState :=
  { st with connected := false }

/-- Embedding of `Connection.exec_command` (decorated with
`ensure_connect`, which calls `_connect` first when not connected):
runs `_distrobox_exec` with extra args `['-a', '--user=<user or root>']`
and returns the child's exit code, stdout and stderr unchanged.  The
`in_data` parameter is accepted but not forwarded, as in the source. -/
def exec_command (w : World) (st : ConnState) (cmd : String)
    (in_data : Option String) :
    ConnState × Except String (Int × String × String) × List Spawn :=
  let st1 := if st.connected then st else connect st
  match distrobox_exec w st1 cmd
      ["-a", "--user=" ++ (if truthy st1.user then st1.user.getD "" else "root")] with
  | (.error e, tr) => (st1, .error e, tr)
  | (.ok r, tr) => (st1, .ok (r.rc, r.stdout, r.stderr), tr)

/-- Embedding of `Connection.put_file`: `podman cp in_path C:out_path`,
raising a fatal error (whose message ends with the child's stderr) on a
non-zero exit; then, when a truthy remote user is configured,
`podman exec C chown user out_path`, raising a fatal error (whose
message ends with that child's stderr) on a non-zero exit. -/
def put_file (w : World) (st : ConnState) (in_path out_path : String) :
    ConnState × Except String Unit × List Spawn :=
  match podman w "cp" [in_path, st.container_id ++ ":" ++ out_path] none with
  | (.error e, tr) => (st, .error e, tr)
  | (.ok r, tr) =>
    if r.rc ≠ 0 then
      (st, .error ("Failed to copy file from " ++ in_path ++ " to " ++ out_path
        ++ " in container " ++ st.container_id ++ "\n" ++ r.stderr), tr)
    else if truthy st.user then
      match podman w "exec" [st.container_id, "chown", st.user.getD "", out_path] none with
      | (.error e, tr2) => (st, .error e, tr ++ tr2)
      | (.ok r2, tr2) =>
        if r2.rc ≠ 0 then
          (st, .error ("Failed to chown file " ++ out_path ++ " for user "
            ++ st.user.getD "" ++ " in container " ++ st.container_id
            ++ "\n" ++ r2.stderr), tr ++ tr2)
        else (st, .ok (), tr ++ tr2)
    else (st, .ok (), tr)

/-- Embedding of `Connection.fetch_file`: `podman cp C:in_path out_path`,
raising a fatal error (whose message ends with the child's stderr) on a
non-zero exit. -/
def fetch_file (w : World) (st : ConnState) (in_path out_path : String) :
    ConnState × Except String Unit × List Spawn :=
  match podman w "cp" [st.container_id ++ ":" ++ in_path, out_path] none with
  | (.error e, tr) => (st, .error e, tr)
  | (.ok r, tr) =>
    if r.rc ≠ 0 then
      (st, .error ("Failed to fetch file from " ++ in_path ++ " to " ++ out_path
        ++ " from container " ++ st.container_id ++ "\n" ++ r.stderr), tr)
    else (st, .ok (), tr)

end Connection

/-! Concrete fixtures used by counterexamples and witnesses. -/

/-- World where both executables resolve and every child succeeds. -/
def okWorld : World :=
  { podman_executable := "podman"
    distrobox_executable := "distrobox"
    resolve := fun _ => some "/usr/bin/tool"
    run := fun _ _ => ⟨0, "out", "err"⟩ }

/-- State with a truthy remote user configured. -/
def aliceState : ConnState :=
  { container_id := "box", user := some "alice", connected := true }

/-- State with no remote user configured. -/
def rootState : ConnState :=
  { container_id := "box", user := none, connected := true }

/-- Claim C1 states that the `distrobox enter` vector contains each flag
exactly once; in fact `exec_command` passes `-a` and `--user=` a second
time through `distrobox_args`, so at a concrete input `-a` occurs twice
and the vector differs from the claimed one. -/
theorem C1_counterexample :
    (Connection.exec_command okWorld aliceState "ls" none).2.2.map Spawn.argv =
      [["/usr/bin/tool", "enter", "-a", "--user=alice", "--name", "box",
        "-a", "--user=alice", "--", "bash", "-l", "-c", "ls"]] ∧
    List.count "-a"
      ((Connection.exec_command okWorld aliceState "ls" none).2.2.map Spawn.argv).flatten = 2 ∧
    (Connection.exec_command okWorld aliceState "ls" none).2.2.map Spawn.argv ≠
      [["/usr/bin/tool", "enter", "-a", "--user=alice", "--name", "box",
        "--", "bash", "-l", "-c", "ls"]] := by
  refine ⟨by decide, by decide, by decide⟩

/-- Claim C1, amended: for every command and configured remote user U
(root when unset), when the distrobox executable resolves to a path p,
exec_command spawns exactly one child, whose argument vector is
[p, 'enter', '-a', '--user=U', '--name', <container id>, '-a',
'--user=U', '--', 'bash', '-l', '-c', cmd]: the '-a' and '--user=U'
flags appear twice (once from the fixed enter flags and once from the
distrobox_args passed by exec_command), the remaining flags once, in
that literal order. -/
theorem C1_argv_dup_flags (w : World) (st : ConnState) (cmd p : String)
    (in_data : Option String)
    (hres : w.resolve w.distrobox_executable = some p)
    (hp : p.isEmpty = false) :
    (Connection.exec_command w st cmd in_data).2.2.map Spawn.argv =
      [[p, "enter",
        "-a", "--user=" ++ (if truthy st.user then st.user.getD "" else "root"),
        "--name", st.container_id,
        "-a", "--user=" ++ (if truthy st.user then st.user.getD "" else "root"),
        "--", "bash", "-l", "-c", cmd]] := by
  unfold Connection.exec_command Connection.distrobox_exec Connection.distrobox
  cases hconn : st.connected <;>
    simp [Connection.connect, hres, hp]

/-- Witness for C1_argv_dup_flags at a concrete world and state. -/
theorem C1_argv_dup_flags_witness :
    (Connection.exec_command okWorld aliceState "ls" none).2.2.map Spawn.argv =
      [["/usr/bin/tool", "enter", "-a", "--user=alice", "--name", "box",
        "-a", "--user=alice", "--", "bash", "-l", "-c", "ls"]] := by
  have h := C1_argv_dup_flags okWorld aliceState "ls" "/usr/bin/tool" none rfl rfl
  simpa using h

/-- Claim C2: when the container-engine executable resolves to a path p,
put_file's first spawned child has argument vector
[p, 'cp', in_path, '<container>:out_path'] (copy-in) and fetch_file
spawns exactly one child with argument vector
[p, 'cp', '<container>:in_path', out_path] (copy-out). -/
theorem C2_cp_argv (w : World) (st : ConnState) (in_path out_path p : String)
    (hres : w.resolve w.podman_executable = some p)
    (hp : p.isEmpty = false) :
    ((Connection.put_file w st in_path out_path).2.2.map Spawn.argv).head? =
      some [p, "cp", in_path, st.container_id ++ ":" ++ out_path] ∧
    (Connection.fetch_file w st in_path out_path).2.2.map Spawn.argv =
      [[p, "cp", st.container_id ++ ":" ++ in_path, out_path]] := by
  constructor
  · unfold Connection.put_file Connection.podman
    simp [hres, hp]
    split_ifs <;> simp
  · unfold Connection.fetch_file Connection.podman
    simp [hres, hp]
    split_ifs <;> simp

/-- Witness for C2_cp_argv at a concrete world and state. -/
theorem C2_cp_argv_witness :
    ((Connection.put_file okWorld aliceState "/tmp/a" "/etc/b").2.2.map Spawn.argv).head? =
      some ["/usr/bin/tool", "cp", "/tmp/a", "box:/etc/b"] ∧
    (Connection.fetch_file okWorld aliceState "/tmp/a" "/etc/b").2.2.map Spawn.argv =
      [["/usr/bin/tool", "cp", "box:/tmp/a", "/etc/b"]] := by
  have h := C2_cp_argv okWorld aliceState "/tmp/a" "/etc/b" "/usr/bin/tool" rfl rfl
  simpa using h

/-- World where both executables resolve and every child exits 1. -/
def failWorld : World :=
  { podman_executable := "podman"
    distrobox_executable := "distrobox"
    resolve := fun _ => some "/usr/bin/tool"
    run := fun _ _ => ⟨1, "out", "boom"⟩ }

/-- World where no executable can be resolved. -/
def noPathWorld : World :=
  { podman_executable := "podman"
    distrobox_executable := "distrobox"
    resolve := fun _ => none
    run := fun _ _ => ⟨0, "", ""⟩ }

/-- Full argument vector spawned by exec_command once the distrobox
executable resolves to the path q (built by _distrobox_exec from the
fixed enter flags, exec_command's distrobox_args, and the trailing
bash invocation). -/
def enterArgv (q : String) (st : ConnState) (cmd : String) : List String :=
  [q, "enter",
   "-a", "--user=" ++ (if truthy st.user then st.user.getD "" else "root"),
   "--name", st.container_id,
   "-a", "--user=" ++ (if truthy st.user then st.user.getD "" else "root"),
   "--", "bash", "-l", "-c", cmd]

/-- Claim C3 states that every operation surfaces a non-zero child exit
code as a fatal error; in fact exec_command raises nothing when the
child exits 1 — it returns the triple (1, stdout, stderr) as a normal
result. -/
theorem C3_counterexample :
    (Connection.exec_command failWorld aliceState "ls" none).2.1 =
      .ok (1, "out", "boom") ∧
    (Connection.exec_command failWorld aliceState "ls" none).2.1.isOk = true := by
  refine ⟨rfl, by decide⟩

/-- Claim C3, amended: put_file and fetch_file surface a non-zero exit
of the copy child as a fatal error; exec_command does not raise on a
non-zero child exit but returns the exit code unchanged to the calling
engine; in each case the failing child is spawned exactly once (no
retries). -/
theorem C3_nonzero_exit (w : World) (st : ConnState)
    (cmd in_path out_path p q : String)
    (hpod : w.resolve w.podman_executable = some p) (hp : p.isEmpty = false)
    (hdb : w.resolve w.distrobox_executable = some q) (hq : q.isEmpty = false) :
    ((w.run [p, "cp", in_path, st.container_id ++ ":" ++ out_path] none).rc ≠ 0 →
      ∃ e, (Connection.put_file w st in_path out_path).2.1 = .error e ∧
        (Connection.put_file w st in_path out_path).2.2.length = 1) ∧
    ((w.run [p, "cp", st.container_id ++ ":" ++ in_path, out_path] none).rc ≠ 0 →
      ∃ e, (Connection.fetch_file w st in_path out_path).2.1 = .error e ∧
        (Connection.fetch_file w st in_path out_path).2.2.length = 1) ∧
    ((w.run (enterArgv q st cmd) none).rc ≠ 0 →
      (Connection.exec_command w st cmd none).2.1 =
        .ok ((w.run (enterArgv q st cmd) none).rc,
             (w.run (enterArgv q st cmd) none).stdout,
             (w.run (enterArgv q st cmd) none).stderr) ∧
      (Connection.exec_command w st cmd none).2.2.length = 1) := by
  refine ⟨?_, ?_, ?_⟩
  · intro hrc
    unfold Connection.put_file Connection.podman
    simp [hpod, hp, hrc]
  · intro hrc
    unfold Connection.fetch_file Connection.podman
    simp [hpod, hp, hrc]
  · intro hrc
    unfold Connection.exec_command Connection.distrobox_exec Connection.distrobox
    cases hconn : st.connected <;>
      simp [Connection.connect, hdb, hq, enterArgv]

/-- Witness for C3_nonzero_exit: in failWorld every child exits 1, so
all three hypotheses are dischargeable at concrete inputs. -/
theorem C3_nonzero_exit_witness :
    (∃ e, (Connection.put_file failWorld aliceState "/tmp/a" "/etc/b").2.1 = .error e ∧
      (Connection.put_file failWorld aliceState "/tmp/a" "/etc/b").2.2.length = 1) ∧
    (∃ e, (Connection.fetch_file failWorld aliceState "/tmp/a" "/etc/b").2.1 = .error e ∧
      (Connection.fetch_file failWorld aliceState "/tmp/a" "/etc/b").2.2.length = 1) ∧
    ((Connection.exec_command failWorld aliceState "ls" none).2.1 = .ok (1, "out", "boom") ∧
      (Connection.exec_command failWorld aliceState "ls" none).2.2.length = 1) := by
  have h := C3_nonzero_exit failWorld aliceState "ls" "/tmp/a" "/etc/b"
    "/usr/bin/tool" "/usr/bin/tool" rfl rfl rfl rfl
  exact ⟨h.1 (by decide), h.2.1 (by decide), h.2.2 (by decide)⟩

/-- Claim C4: for every command and every child-process outcome, once
the distrobox executable resolves, exec_command reports the child's
exit code, stdout and stderr to the caller unchanged (to_bytes on data
that is already bytes is the identity). -/
theorem C4_passthrough (w : World) (st : ConnState) (cmd q : String)
    (in_data : Option String)
    (hdb : w.resolve w.distrobox_executable = some q) (hq : q.isEmpty = false) :
    (Connection.exec_command w st cmd in_data).2.1 =
      .ok ((w.run (enterArgv q st cmd) none).rc,
           (w.run (enterArgv q st cmd) none).stdout,
           (w.run (enterArgv q st cmd) none).stderr) := by
  unfold Connection.exec_command Connection.distrobox_exec Connection.distrobox
  cases hconn : st.connected <;>
    simp [Connection.connect, hdb, hq, enterArgv]

/-- Witness for C4_passthrough at a concrete world and state. -/
theorem C4_passthrough_witness :
    (Connection.exec_command okWorld aliceState "ls" none).2.1 =
      .ok (0, "out", "err") := by
  have h := C4_passthrough okWorld aliceState "ls" "/usr/bin/tool" none rfl rfl
  simpa using h

/-- Claim C5: when the configured executable does not resolve (or
resolves to a falsy path), both helpers fail with a fatal error naming
the executable, and spawn no child process. -/
theorem C5_not_found (w : World) (sub : String) (args : List String)
    (in_data : Option String)
    (hpod : w.resolve w.podman_executable = none ∨
      w.resolve w.podman_executable = some "")
    (hdb : w.resolve w.distrobox_executable = none ∨
      w.resolve w.distrobox_executable = some "") :
    Connection.podman w sub args in_data =
      (.error (w.podman_executable ++ " command not found in PATH"), []) ∧
    Connection.distrobox w sub args in_data =
      (.error (w.distrobox_executable ++ " command not found in PATH"), []) := by
  constructor
  · rcases hpod with h | h <;>
      (unfold Connection.podman; simp [h, notFoundMsg]; try decide)
  · rcases hdb with h | h <;>
      (unfold Connection.distrobox; simp [h, notFoundMsg]; try decide)

/-- Witness for C5_not_found in a world with an empty search path. -/
theorem C5_not_found_witness :
    Connection.podman noPathWorld "cp" ["/tmp/a", "box:/etc/b"] none =
      (.error "podman command not found in PATH", []) ∧
    Connection.distrobox noPathWorld "enter" [] none =
      (.error "distrobox command not found in PATH", []) := by
  have h1 := C5_not_found noPathWorld "cp" ["/tmp/a", "box:/etc/b"] none
    (.inl rfl) (.inl rfl)
  have h2 := C5_not_found noPathWorld "enter" [] none (.inl rfl) (.inl rfl)
  exact ⟨h1.1, h2.2⟩

/-- World where the copy child succeeds and the chown child (podman
exec) exits 1 with a diagnostic on stderr. -/
def chownFailWorld : World :=
  { podman_executable := "podman"
    distrobox_executable := "distrobox"
    resolve := fun _ => some "/usr/bin/tool"
    run := fun argv _ =>
      if argv[1]? = some "exec" then ⟨1, "", "chown failed"⟩
      else ⟨0, "", ""⟩ }

/-- Claim C6 states that a zero copy exit makes the operation return
normally; in fact with a configured user a zero copy can be followed by
a failing chown, and put_file still raises. -/
theorem C6_counterexample :
    (chownFailWorld.run ["/usr/bin/tool", "cp", "/tmp/a", "box:/etc/b"] none).rc = 0 ∧
    (Connection.put_file chownFailWorld aliceState "/tmp/a" "/etc/b").2.1 =
      .error "Failed to chown file /etc/b for user alice in container box\nchown failed" := by
  refine ⟨by decide, rfl⟩

/-- Claim C6, amended: the copy invocation exiting non-zero raises a
fatal error whose message ends with the child's captured stderr, and
raises-iff-nonzero holds per step: a zero copy makes fetch_file return
normally, and makes put_file return normally exactly when no remote
user is configured or the subsequent chown child also exits zero. -/
theorem C6_copy_error_iff (w : World) (st : ConnState)
    (in_path out_path p : String)
    (hres : w.resolve w.podman_executable = some p) (hp : p.isEmpty = false) :
    ((w.run [p, "cp", st.container_id ++ ":" ++ in_path, out_path] none).rc ≠ 0 →
      (Connection.fetch_file w st in_path out_path).2.1 =
        .error ("Failed to fetch file from " ++ in_path ++ " to " ++ out_path
          ++ " from container " ++ st.container_id ++ "\n"
          ++ (w.run [p, "cp", st.container_id ++ ":" ++ in_path, out_path] none).stderr)) ∧
    ((w.run [p, "cp", st.container_id ++ ":" ++ in_path, out_path] none).rc = 0 →
      (Connection.fetch_file w st in_path out_path).2.1 = .ok ()) ∧
    ((w.run [p, "cp", in_path, st.container_id ++ ":" ++ out_path] none).rc ≠ 0 →
      (Connection.put_file w st in_path out_path).2.1 =
        .error ("Failed to copy file from " ++ in_path ++ " to " ++ out_path
          ++ " in container " ++ st.container_id ++ "\n"
          ++ (w.run [p, "cp", in_path, st.container_id ++ ":" ++ out_path] none).stderr)) ∧
    ((w.run [p, "cp", in_path, st.container_id ++ ":" ++ out_path] none).rc = 0 →
      truthy st.user = false →
      (Connection.put_file w st in_path out_path).2.1 = .ok ()) ∧
    ((w.run [p, "cp", in_path, st.container_id ++ ":" ++ out_path] none).rc = 0 →
      truthy st.user = true →
      ((Connection.put_file w st in_path out_path).2.1 = .ok () ↔
        (w.run [p, "exec", st.container_id, "chown", st.user.getD "", out_path] none).rc = 0)) := by
  refine ⟨?_, ?_, ?_, ?_, ?_⟩
  · intro hrc
    unfold Connection.fetch_file Connection.podman
    simp [hres, hp, hrc]
  · intro hrc
    unfold Connection.fetch_file Connection.podman
    simp [hres, hp, hrc]
  · intro hrc
    unfold Connection.put_file Connection.podman
    simp [hres, hp, hrc]
  · intro hrc huser
    unfold Connection.put_file Connection.podman
    simp [hres, hp, hrc, huser]
  · intro hrc huser
    unfold Connection.put_file Connection.podman
    simp [hres, hp, hrc, huser]
    split_ifs with h2 <;> simp [h2]

/-- Witness for C6_copy_error_iff: in chownFailWorld the copies exit
zero and the chown exits one. -/
theorem C6_copy_error_iff_witness :
    (Connection.fetch_file chownFailWorld aliceState "/tmp/a" "/etc/b").2.1 = .ok () ∧
    ¬((Connection.put_file chownFailWorld aliceState "/tmp/a" "/etc/b").2.1 = .ok ()) := by
  have h := C6_copy_error_iff chownFailWorld aliceState "/tmp/a" "/etc/b"
    "/usr/bin/tool" rfl rfl
  refine ⟨h.2.1 (by decide), ?_⟩
  intro hok
  have := (h.2.2.2.2 (by decide) (by decide)).mp hok
  exact absurd this (by decide)

/-- Claim C7: no operation keeps state beyond the single invocation:
exec_command, put_file and fetch_file leave the container identifier
and remote user unchanged, and the executable path is resolved anew on
every helper invocation — after any operation under world w1, a
put_file under a world w2 that no longer resolves the podman executable
fails with the not-found error, so no resolved path is cached on the
connection. -/
theorem C7_stateless (w1 w2 : World) (st : ConnState)
    (cmd in_path out_path : String) (in_data : Option String)
    (h2 : w2.resolve w2.podman_executable = none) :
    ((Connection.exec_command w1 st cmd in_data).1.container_id = st.container_id ∧
     (Connection.exec_command w1 st cmd in_data).1.user = st.user) ∧
    (Connection.put_file w1 st in_path out_path).1 = st ∧
    (Connection.fetch_file w1 st in_path out_path).1 = st ∧
    (Connection.put_file w2 (Connection.exec_command w1 st cmd in_data).1
        in_path out_path).2.1 =
      .error (notFoundMsg w2.podman_executable) := by
  have hexec : ∀ (w : World) (s : ConnState) (c : String) (d : Option String),
      (Connection.exec_command w s c d).1 = if s.connected then s else Connection.connect s := by
    intro w s c d
    simp only [Connection.exec_command]
    repeat' split
    all_goals rfl
  have hput : ∀ (w : World) (s : ConnState) (a b : String),
      (Connection.put_file w s a b).1 = s := by
    intro w s a b
    simp only [Connection.put_file]
    repeat' split
    all_goals rfl
  have hfetch : ∀ (w : World) (s : ConnState) (a b : String),
      (Connection.fetch_file w s a b).1 = s := by
    intro w s a b
    simp only [Connection.fetch_file]
    repeat' split
    all_goals rfl
  refine ⟨⟨?_, ?_⟩, hput w1 st in_path out_path, hfetch w1 st in_path out_path, ?_⟩
  · rw [hexec]; cases hc : st.connected <;> simp [Connection.connect]
  · rw [hexec]; cases hc : st.connected <;> simp [Connection.connect]
  · unfold Connection.put_file Connection.podman
    simp [h2]

/-- Witness for C7_stateless: an exec under okWorld followed by a
put_file under noPathWorld fails to resolve podman afresh. -/
theorem C7_stateless_witness :
    ((Connection.exec_command okWorld aliceState "ls" none).1.container_id = "box" ∧
     (Connection.exec_command okWorld aliceState "ls" none).1.user = some "alice") ∧
    (Connection.put_file okWorld aliceState "/tmp/a" "/etc/b").1 = aliceState ∧
    (Connection.fetch_file okWorld aliceState "/tmp/a" "/etc/b").1 = aliceState ∧
    (Connection.put_file noPathWorld (Connection.exec_command okWorld aliceState "ls" none).1
        "/tmp/a" "/etc/b").2.1 =
      .error (notFoundMsg "podman") := by
  have h := C7_stateless okWorld noPathWorld aliceState "ls" "/tmp/a" "/etc/b" none rfl
  simpa using h

/-- Claim C8: put_file performs the chown step only when a truthy
remote user is configured and the copy child exited zero; it then
spawns exactly one more child, podman exec <container> chown <user>
<out_path>, and fails iff that child exits non-zero; after a failed
copy, or without a configured user, no chown child is spawned; the
connection state is unchanged throughout. -/
theorem C8_chown_step (w : World) (st : ConnState) (in_path out_path p : String)
    (hres : w.resolve w.podman_executable = some p) (hp : p.isEmpty = false) :
    ((w.run [p, "cp", in_path, st.container_id ++ ":" ++ out_path] none).rc = 0 →
      truthy st.user = true →
      ((Connection.put_file w st in_path out_path).2.2.map Spawn.argv =
        [[p, "cp", in_path, st.container_id ++ ":" ++ out_path],
         [p, "exec", st.container_id, "chown", st.user.getD "", out_path]] ∧
       ((Connection.put_file w st in_path out_path).2.1 = .ok () ↔
         (w.run [p, "exec", st.container_id, "chown", st.user.getD "", out_path] none).rc = 0))) ∧
    ((w.run [p, "cp", in_path, st.container_id ++ ":" ++ out_path] none).rc ≠ 0 →
      (Connection.put_file w st in_path out_path).2.2.map Spawn.argv =
        [[p, "cp", in_path, st.container_id ++ ":" ++ out_path]]) ∧
    (truthy st.user = false →
      (Connection.put_file w st in_path out_path).2.2.map Spawn.argv =
        [[p, "cp", in_path, st.container_id ++ ":" ++ out_path]]) ∧
    (Connection.put_file w st in_path out_path).1 = st := by
  refine ⟨?_, ?_, ?_, ?_⟩
  · intro hrc huser
    unfold Connection.put_file Connection.podman
    simp [hres, hp, hrc, huser]
    split_ifs with h2 <;> simp [h2]
  · intro hrc
    unfold Connection.put_file Connection.podman
    simp [hres, hp, hrc]
  · intro huser
    unfold Connection.put_file Connection.podman
    simp [hres, hp, huser]
    split_ifs <;> simp
  · simp only [Connection.put_file]
    repeat' split
    all_goals rfl

/-- Witness for C8_chown_step in chownFailWorld with user alice: both
children are spawned in order, and the failing chown makes the
operation fail. -/
theorem C8_chown_step_witness :
    ((Connection.put_file chownFailWorld aliceState "/tmp/a" "/etc/b").2.2.map Spawn.argv =
      [["/usr/bin/tool", "cp", "/tmp/a", "box:/etc/b"],
       ["/usr/bin/tool", "exec", "box", "chown", "alice", "/etc/b"]] ∧
     ((Connection.put_file chownFailWorld aliceState "/tmp/a" "/etc/b").2.1 = .ok () ↔
       (chownFailWorld.run ["/usr/bin/tool", "exec", "box", "chown", "alice", "/etc/b"] none).rc = 0)) ∧
    (Connection.put_file chownFailWorld aliceState "/tmp/a" "/etc/b").1 = aliceState := by
  have h := C8_chown_step chownFailWorld aliceState "/tmp/a" "/etc/b" "/usr/bin/tool" rfl rfl
  exact ⟨by simpa using h.1 (by decide) (by decide), h.2.2.2⟩

/-- Claim C9: with no remote user configured (unset or empty), the
distrobox enter vector built by exec_command contains '--user=root'. -/
theorem C9_root_default (w : World) (st : ConnState) (cmd q : String)
    (in_data : Option String)
    (hdb : w.resolve w.distrobox_executable = some q) (hq : q.isEmpty = false)
    (huser : truthy st.user = false) :
    (Connection.exec_command w st cmd in_data).2.2.map Spawn.argv =
      [[q, "enter", "-a", "--user=root", "--name", st.container_id,
        "-a", "--user=root", "--", "bash", "-l", "-c", cmd]] ∧
    "--user=root" ∈ [q, "enter", "-a", "--user=root", "--name", st.container_id,
        "-a", "--user=root", "--", "bash", "-l", "-c", cmd] := by
  constructor
  · unfold Connection.exec_command Connection.distrobox_exec Connection.distrobox
    cases hconn : st.connected <;>
      simp [Connection.connect, hdb, hq, huser]
  · simp

/-- Witness for C9_root_default: with an unset user the vector carries
'--user=root'. -/
theorem C9_root_default_witness :
    (Connection.exec_command okWorld rootState "ls" none).2.2.map Spawn.argv =
      [["/usr/bin/tool", "enter", "-a", "--user=root", "--name", "box",
        "-a", "--user=root", "--", "bash", "-l", "-c", "ls"]] := by
  have h := C9_root_default okWorld rootState "ls" "/usr/bin/tool" none rfl rfl rfl
  simpa using h.1

/-- Helper: put_file reads only the container identifier and the user
from the state, so its outcome is independent of the connected flag. -/
theorem put_file_ignores_connected (w : World) (s1 s2 : ConnState)
    (hcid : s1.container_id = s2.container_id) (hu : s1.user = s2.user)
    (a b : String) :
    (Connection.put_file w s1 a b).2 = (Connection.put_file w s2 a b).2 := by
  unfold Connection.put_file
  rw [hcid, hu]
  repeat' split
  all_goals rfl

/-- Helper: fetch_file reads only the container identifier from the
state, so its outcome is independent of the connected flag. -/
theorem fetch_file_ignores_connected (w : World) (s1 s2 : ConnState)
    (hcid : s1.container_id = s2.container_id)
    (a b : String) :
    (Connection.fetch_file w s1 a b).2 = (Connection.fetch_file w s2 a b).2 := by
  unfold Connection.fetch_file
  rw [hcid]
  repeat' split
  all_goals rfl

/-- Claim C10: after exec_command the connection is established
(ensure_connect connects first when not connected); put_file and
fetch_file leave the state, and in particular the connected flag,
unchanged, and behave identically whether or not a connection was
established; close always clears the flag. -/
theorem C10_connected_flag (w : World) (st : ConnState)
    (cmd in_path out_path : String) (in_data : Option String) :
    (Connection.exec_command w st cmd in_data).1.connected = true ∧
    (Connection.put_file w st in_path out_path).1 = st ∧
    (Connection.fetch_file w st in_path out_path).1 = st ∧
    (Connection.put_file w { st with connected := false } in_path out_path).2 =
      (Connection.put_file w { st with connected := true } in_path out_path).2 ∧
    (Connection.fetch_file w { st with connected := false } in_path out_path).2 =
      (Connection.fetch_file w { st with connected := true } in_path out_path).2 ∧
    (Connection.close st).connected = false := by
  refine ⟨?_, ?_, ?_,
    put_file_ignores_connected w { st with connected := false }
      { st with connected := true } rfl rfl in_path out_path,
    fetch_file_ignores_connected w { st with connected := false }
      { st with connected := true } rfl in_path out_path, rfl⟩
  · have h1 : (Connection.exec_command w st cmd in_data).1 =
        if st.connected then st else Connection.connect st := by
      simp only [Connection.exec_command]
      repeat' split
      all_goals rfl
    rw [h1]
    cases hc : st.connected <;> simp [Connection.connect, hc]
  · simp only [Connection.put_file]
    repeat' split
    all_goals rfl
  · simp only [Connection.fetch_file]
    repeat' split
    all_goals rfl

end Distrobox
